import Mathlib

/-!
Shallow embedding of the GRC ornament wheel components of this repository.

The repository contains several near-duplicate variants of the same 3D
wheel component.  The claims reference four of them:

* `MainWheel`  — `src/src/components/FilmRollWheel.tsx` (first document in the
  file): pointer handlers on the Canvas accumulate `wheelVelocity`, and an
  in-scene `PivotController` applies that velocity with damping and a clamp
  each frame.  Also hosts the selection toggle, the record lookup and the
  four-key spec-label mapping of its `DetailPanel`.
* `Part002`    — `src/unnamed/part_002` (`FilmRollWheelFull`): window-level
  mouse/touch drag that rotates the pivot directly, a smoothed (lerp)
  velocity, and a `useFrame` loop with auto-rotate, inertia decay and a
  snap-to-zero threshold.
* `Part001`    — `src/unnamed/part_001`: auto-rotate-only scene whose mount
  effect configures the orbit-controls target behind a nil guard.
* `Part003`    — `src/unnamed/part_003` (robotic wheel): card layout that
  uses `(cos, sin)` and a `+ π/2` yaw, and the six-key spec-label mapping.

Numeric state is modelled over `ℚ` (the drag/damping/selection logic uses
only rational constants), geometry over `ℝ` with `Real.sin`/`Real.cos`.
-/

namespace GrcWheel

/-! ### Shared data model

`OrnamentRecord.specs` is an ordered key/value map; `Object.entries` in the
source iterates it in insertion order, so it is embedded as a list of pairs
in the order the object literals are written. -/

inductive SpecKey where
  | material
  | dimensions
  | weight
  | finish
  | category
  | warranty
deriving DecidableEq, Repr

structure OrnamentRecord where
  id : ℤ
  name : String
  description : String
  specs : List (SpecKey × String)
deriving DecidableEq, Repr

/-- Rendered content of a detail-panel overlay: title, description and the
spec table rows (label, value) in render order. -/
structure RenderedPanel where
  title : String
  description : String
  specRows : List (String × String)
deriving DecidableEq, Repr

end GrcWheel

namespace GrcWheel.MainWheel

/-! ### `src/src/components/FilmRollWheel.tsx` (first document) -/

/-- `const clamp = (v, a, b) => Math.max(a, Math.min(b, v))` (line 79). -/
def clamp (v a b : ℚ) : ℚ := max a (min b v)

/-- `const WHEEL_RADIUS = 6` (line 42). -/
def WHEEL_RADIUS : ℚ := 6

/-- `const CARD_COUNT = 12` (line 45). -/
def CARD_COUNT : ℕ := 12

/-- Sample dimensions string: ``${60+i*5}cm x ${40+i*3}cm x ${8+i}cm``. -/
def dimensionsText (i : ℕ) : String :=
  toString (60 + i * 5) ++ "cm x " ++ toString (40 + i * 3) ++ "cm x "
    ++ toString (8 + i) ++ "cm"

/-- One element of `ornamentData` (lines 62–74): id `i+1`, four spec keys in
the insertion order material, dimensions, weight, finish. -/
def mkOrnament (i : ℕ) : OrnamentRecord :=
  { id := (i : ℤ) + 1
    name := "Ornamen " ++ toString (i + 1)
    description := "Ornamen GRC premium dengan desain klasik yang elegan. Cocok untuk dekorasi eksterior maupun interior bangunan."
    specs :=
      [ (SpecKey.material, "Glass Fiber Reinforced Concrete")
      , (SpecKey.dimensions, dimensionsText i)
      , (SpecKey.weight, toString (12 + i * 2) ++ " kg")
      , (SpecKey.finish, if i % 2 = 0 then "Natural Stone" else "Painted Finish") ] }

/-- `ornamentData = Array.from({length: CARD_COUNT}, (_, i) => ...)`. -/
def ornamentData : List OrnamentRecord := (List.range CARD_COUNT).map mkOrnament

/-! #### Selection state (lines 392–409, 229–231) -/

structure UIState where
  selectedId : Option ℤ
  isAutoPlaying : Bool
deriving DecidableEq, Repr

/-- JavaScript truthiness of `id : number | null`: `null` and `0` are falsy. -/
def truthyId : Option ℤ → Bool
  | none => false
  | some n => n != 0

/-- `handleSelect = (id) => { setSelectedId(id); if (id) setIsAutoPlaying(false); }`
(lines 406–409). -/
def handleSelect (id : Option ℤ) (s : UIState) : UIState :=
  { selectedId := id
    isAutoPlaying := if truthyId id then false else s.isAutoPlaying }

/-- Card `onClick` (lines 229–231):
`onSelect(selectedId === data.id ? null : data.id)` routed to `handleSelect`. -/
def clickCard (k : ℤ) (s : UIState) : UIState :=
  handleSelect (if s.selectedId = some k then none else some k) s

/-! #### Selected-record lookup and detail panel (lines 472, 240–285) -/

/-- `selectedId ? ornamentData.find((o) => o.id === selectedId) || null : null`
(line 472). -/
def selectedData (selectedId : Option ℤ) : Option OrnamentRecord :=
  match selectedId with
  | none => none
  | some n => if n = 0 then none else ornamentData.find? (fun o => o.id == n)

/-- Spec key → label mapping of the `DetailPanel` (lines 272–279):
`key === "material" ? "Material" : key === "dimensions" ? "Dimensi"
 : key === "weight" ? "Berat" : "Finishing"`. -/
def specLabel4 : SpecKey → String
  | SpecKey.material => "Material"
  | SpecKey.dimensions => "Dimensi"
  | SpecKey.weight => "Berat"
  | _ => "Finishing"

/-- `Object.entries(data.specs).map(([key, value]) => ...)` rendered rows. -/
def renderSpecs4 (specs : List (SpecKey × String)) : List (String × String) :=
  specs.map (fun p => (specLabel4 p.1, p.2))

/-- `DetailPanel` (lines 240–285): `if (!data) return null;` else render. -/
def renderDetailPanel : Option OrnamentRecord → Option RenderedPanel
  | none => none
  | some d => some { title := d.name, description := d.description,
                     specRows := renderSpecs4 d.specs }

/-! #### Pointer handlers on the Canvas (lines 411–439) -/

structure PointerState where
  isPointerDown : Bool
  lastClientX : Option ℚ
  wheelVelocity : ℚ
  userControlActive : Bool
deriving DecidableEq, Repr

/-- `const sensitivity = 0.0028` (line 437). -/
def sensitivity : ℚ := 28 / 10000

/-- `onPointerDown` (lines 418–424). -/
def onPointerDown (clientX : ℚ) (s : PointerState) : PointerState :=
  { s with isPointerDown := true, lastClientX := some clientX,
           userControlActive := true }

/-- `onPointerUp` (lines 426–429). -/
def onPointerUp (s : PointerState) : PointerState :=
  { s with isPointerDown := false, lastClientX := none }

/-- `onPointerMove` (lines 431–439): guarded by
`isPointerDown.current && lastClientX.current != null`, then
`wheelVelocity.current += dx * sensitivity` with `dx = clientX - lastClientX`. -/
def onPointerMove (clientX : ℚ) (s : PointerState) : PointerState :=
  match s.isPointerDown, s.lastClientX with
  | true, some lastX =>
      { s with lastClientX := some clientX,
               wheelVelocity := s.wheelVelocity + (clientX - lastX) * sensitivity }
  | _, _ => s

/-! #### `PivotController` per-frame update (lines 562–602) -/

structure PivotFrameState where
  rotationY : ℚ
  wheelVelocity : ℚ
  isAutoPlaying : Bool
  userControlActive : Bool
deriving DecidableEq, Repr

/-- One `useFrame` tick of `PivotController` (lines 585–601), after the pivot
group has been found: read `v`, add the auto term when
`isAutoPlaying && !userControlActive`, apply `rotation.y -= v`, then damp
`wheelVelocity *= 0.92` and clamp it into `[-2, 2]`. -/
def pivotFrame (delta : ℚ) (s : PivotFrameState) : PivotFrameState :=
  { s with
    rotationY := s.rotationY -
      (s.wheelVelocity +
        (if s.isAutoPlaying ∧ s.userControlActive = false then 2 / 100 * delta else 0))
    wheelVelocity := clamp (s.wheelVelocity * (92 / 100)) (-2) 2 }

end GrcWheel.MainWheel

namespace GrcWheel.Part002

/-! ### `src/unnamed/part_002` (`FilmRollWheelFull`) -/

/-- `const WHEEL_RADIUS = 6` (line 34). -/
def WHEEL_RADIUS : ℚ := 6

/-- `const AUTO_SPEED = 0.15` rad/s (line 310). -/
def AUTO_SPEED : ℚ := 15 / 100

/-- State touched by the window drag handlers and the `useFrame` loop of
`Scene` (lines 282–410): the pivot rotation, the smoothed angular velocity,
the drag flag, the auto-play flag and whether `pivotRef.current` is set. -/
structure DragState where
  angle : ℚ
  velocity : ℚ
  prevX : ℚ
  isDragging : Bool
  isAutoPlaying : Bool
  pivotReady : Bool
deriving DecidableEq, Repr

/-- `THREE.MathUtils.lerp(x, y, t) = x + (y - x) * t`. -/
def lerp (x y t : ℚ) : ℚ := x + (y - x) * t

/-- `onDown` (lines 314–321): start dragging, remember `clientX`, zero the
velocity and stop auto-play. -/
def onDown (clientX : ℚ) (s : DragState) : DragState :=
  { s with isDragging := true, prevX := clientX, velocity := 0,
           isAutoPlaying := false }

/-- `onMove` (lines 323–334): guarded by `isDragging.current && pivotRef.current`.
`dx = clientX - prevX`; `rotationDelta = -dx * 0.01` applied to
`pivot.rotation.y`; velocity low-passed by
`lerp(velocity, rotationDelta / (1/60), 0.2)`. -/
def onMove (clientX : ℚ) (s : DragState) : DragState :=
  if s.isDragging ∧ s.pivotReady then
    { s with prevX := clientX,
             angle := s.angle + -(clientX - s.prevX) * (1 / 100),
             velocity := lerp s.velocity (-(clientX - s.prevX) * (1 / 100) * 60) (2 / 10) }
  else s

/-- `onUp` (lines 336–342): stop dragging; velocities below `0.0005` are
zeroed, larger ones become the inertia velocity. -/
def onUp (s : DragState) : DragState :=
  if s.isDragging then
    { s with isDragging := false,
             velocity := if |s.velocity| < 5 / 10000 then 0 else s.velocity }
  else s

/-- Friction factor per frame: `Math.max(0.92, 1 - 1.5 * delta)` (line 400). -/
def friction (delta : ℚ) : ℚ := max (92 / 100) (1 - 15 / 10 * delta)

/-- Auto-rotate branch of `useFrame` (lines 391–394): only when auto-playing,
not dragging, the residual velocity is below `0.0001`, and the pivot exists. -/
def frameAuto (delta : ℚ) (s : DragState) : DragState :=
  if s.isAutoPlaying ∧ s.isDragging = false ∧ |s.velocity| < 1 / 10000 ∧ s.pivotReady then
    { s with angle := s.angle + AUTO_SPEED * delta }
  else s

/-- Inertia branch of `useFrame` (lines 396–404): when not dragging and
`|velocity| > 0.000001`, advance the angle by `velocity * delta`, multiply the
velocity by the friction factor, and snap it to `0` below `0.00002`. -/
def frameInertia (delta : ℚ) (s : DragState) : DragState :=
  if s.isDragging = false ∧ 1 / 1000000 < |s.velocity| ∧ s.pivotReady then
    { s with angle := s.angle + s.velocity * delta,
             velocity :=
               if |s.velocity * friction delta| < 2 / 100000 then 0
               else s.velocity * friction delta }
  else s

/-- One `useFrame` tick (lines 384–410): the auto-rotate branch runs first,
then the inertia branch, in the same callback. -/
def frame (delta : ℚ) (s : DragState) : DragState :=
  frameInertia delta (frameAuto delta s)

/-- The velocity component of the inertia branch in isolation (the angle does
not feed back into the velocity). -/
def velStep (delta v : ℚ) : ℚ :=
  if 1 / 1000000 < |v| then
    if |v * friction delta| < 2 / 100000 then 0 else v * friction delta
  else v

/-- Per-frame retargeting of the orbit controls (lines 386–389):
`if (controlsRef.current) { controlsRef.current.target.set(PIVOT_WORLD_X, 0, 0); ... }`
with `PIVOT_WORLD_X = 6` (line 31).  A `none` reference is left untouched. -/
def retargetFrame : Option (ℚ × ℚ × ℚ) → Option (ℚ × ℚ × ℚ)
  | none => none
  | some _ => some (6, 0, 0)

/-! #### The end-to-end drag scenario of §8.8 of the spec -/

/-- A freshly mounted scene: `angle = 0`, `velocity = 0`, auto-play on. -/
def initState : DragState :=
  { angle := 0, velocity := 0, prevX := 0,
    isDragging := false, isAutoPlaying := true, pivotReady := true }

/-- Mouse down at x = 0, then three moves of +50 px each. -/
def afterDrag : DragState :=
  onMove 150 (onMove 100 (onMove 50 (onDown 0 initState)))

/-- State immediately after release. -/
def released : DragState := onUp afterDrag

end GrcWheel.Part002

namespace GrcWheel.Part001

/-! ### `src/unnamed/part_001` (first document) -/

/-- `const PIVOT_WORLD_X = 6` (line 16). -/
def PIVOT_WORLD_X : ℚ := 6

/-- The mount-once `useEffect` of `Scene` (lines 331–336): bail out when
`controlsRef.current` is nil, otherwise set the controls target to the pivot
world position. -/
def mountEffectTarget : Option (ℚ × ℚ × ℚ) → Option (ℚ × ℚ × ℚ)
  | none => none
  | some _ => some (PIVOT_WORLD_X, 0, 0)

/-- Scene state of part_001: wheel rotation, auto-play flag, and the current
orbit-controls target (if controls are mounted). -/
structure SceneState where
  rotation : ℚ
  isAutoPlaying : Bool
  controlsTarget : Option (ℚ × ℚ × ℚ)
deriving DecidableEq, Repr

/-- The `useFrame` callback of part_001's `Scene` (lines 324–328): only
`setRotation(r + delta * 0.15)` when auto-playing; it never touches the
controls target. -/
def sceneFrame (delta : ℚ) (s : SceneState) : SceneState :=
  if s.isAutoPlaying then { s with rotation := s.rotation + delta * (15 / 100) } else s

end GrcWheel.Part001

namespace GrcWheel.Part003

/-! ### `src/unnamed/part_003` (robotic wheel): data and detail panel -/

/-- Dimensions string of part_003 (line 31), with the `×` glyph. -/
def dimensionsText3 (i : ℕ) : String :=
  toString (60 + i * 5) ++ "cm × " ++ toString (40 + i * 3) ++ "cm × "
    ++ toString (8 + i) ++ "cm"

/-- One element of part_003's `ornamentData` (lines 24–37): six spec keys in
the insertion order material, dimensions, weight, finish, category, warranty. -/
def mkOrnament3 (i : ℕ) : OrnamentRecord :=
  { id := (i : ℤ) + 1
    name := "Ornamen " ++ toString (i + 1)
    description := "Ornamen GRC premium dengan desain klasik yang elegan. Dibuat dari material Glass Fiber Reinforced Concrete berkualitas tinggi dengan presisi tinggi. Cocok untuk dekorasi eksterior maupun interior bangunan modern dan klasik."
    specs :=
      [ (SpecKey.material, "Glass Fiber Reinforced Concrete")
      , (SpecKey.dimensions, dimensionsText3 i)
      , (SpecKey.weight, toString (12 + i * 2) ++ " kg")
      , (SpecKey.finish, if i % 2 = 0 then "Natural Stone" else "Painted Finish")
      , (SpecKey.category,
          if i % 3 = 0 then "Exterior" else if i % 3 = 1 then "Interior" else "Universal")
      , (SpecKey.warranty, "10 tahun") ] }

/-- `ornamentData` of part_003. -/
def ornamentData3 : List OrnamentRecord := (List.range 12).map mkOrnament3

/-- Spec key → label mapping of part_003's `DetailPanel` (lines 290–307):
material → Material, dimensions → Dimensi, weight → Berat,
finish → Finishing, category → Kategori, else Garansi. -/
def specLabel6 : SpecKey → String
  | SpecKey.material => "Material"
  | SpecKey.dimensions => "Dimensi"
  | SpecKey.weight => "Berat"
  | SpecKey.finish => "Finishing"
  | SpecKey.category => "Kategori"
  | _ => "Garansi"

/-- `Object.entries(data.specs).map(...)` of part_003's panel. -/
def renderSpecs6 (specs : List (SpecKey × String)) : List (String × String) :=
  specs.map (fun p => (specLabel6 p.1, p.2))

/-- part_003 `DetailPanel` (lines 231–320): `if (!data) return null;`. -/
def renderDetailPanel3 : Option OrnamentRecord → Option RenderedPanel
  | none => none
  | some d => some { title := d.name, description := d.description,
                     specRows := renderSpecs6 d.specs }

end GrcWheel.Part003

namespace GrcWheel.Geometry

open Real

/-! ### Card and rod geometry (exact reals)

Embeds the layout arithmetic of the `Card` components and the connector rods
of `WheelWithGear`.  The JavaScript uses `Math.sin`/`Math.cos`/`Math.hypot`
on doubles; the claims about this code are stated in exact real arithmetic,
so the embedding uses `Real.sin`, `Real.cos` and `Real.sqrt`. -/

/-- Rotation about the vertical (Y) axis by `phi`, as three.js applies it to
a child vector `(x, y, z)`: `(x cos phi + z sin phi, y, -x sin phi + z cos phi)`. -/
noncomputable def rotY (phi : ℝ) (v : ℝ × ℝ × ℝ) : ℝ × ℝ × ℝ :=
  (Real.cos phi * v.1 + Real.sin phi * v.2.2, v.2.1,
   -Real.sin phi * v.1 + Real.cos phi * v.2.2)

/-- `angleStep = (Math.PI * 2) / cardCount` (FilmRollWheel.tsx line 167). -/
noncomputable def angleStep (cardCount : ℕ) : ℝ := Real.pi * 2 / cardCount

/-- `totalAngle = angle + wheelRotation` with `angle = index * angleStep`
(FilmRollWheel.tsx lines 104, 227). -/
noncomputable def totalAngle (index cardCount : ℕ) (wheelRotation : ℝ) : ℝ :=
  index * angleStep cardCount + wheelRotation

/-- Card position in FilmRollWheel.tsx (lines 105–106), part_001 (79–80) and
part_002 (87–88): `(Math.sin(totalAngle) * radius, 0, Math.cos(totalAngle) * radius)`. -/
noncomputable def cardPosition (radius total : ℝ) : ℝ × ℝ × ℝ :=
  (Real.sin total * radius, 0, Real.cos total * radius)

/-- Card yaw in FilmRollWheel.tsx (line 107) and part_002 (line 89):
`rotationY = totalAngle + Math.PI`. -/
noncomputable def cardRotationY (total : ℝ) : ℝ := total + Real.pi

/-- Card yaw in part_001 (line 83): `rotation={[0, totalAngle, 0]}`. -/
def cardRotationY1 (total : ℝ) : ℝ := total

/-- Modelled from the spec: the claimed card position
`(sin(total)*radius, 0, cos(total)*radius)` (spec §4.2), for the refinement
comparison against the source embeddings. -/
noncomputable def specCardPosition (radius total : ℝ) : ℝ × ℝ × ℝ :=
  (Real.sin total * radius, 0, Real.cos total * radius)

/-- Card position in part_003 (lines 57–58):
`x = Math.cos(totalAngle) * radius; z = Math.sin(totalAngle) * radius`. -/
noncomputable def card3Position (radius total : ℝ) : ℝ × ℝ × ℝ :=
  (Real.cos total * radius, 0, Real.sin total * radius)

/-- Card yaw in part_003 (line 60): `rotationY = totalAngle + Math.PI / 2`. -/
noncomputable def card3RotationY (total : ℝ) : ℝ := total + Real.pi / 2

/-! #### Connector rods (FilmRollWheel.tsx lines 204–220, part_001 186–202)

`gearOuterRadius = 1.6`, wheel radius `6`; for each rod
`rodAngle = (i / cardCount) * Math.PI * 2 + rotation`, the endpoints sit at
radii `gearOuterRadius` and `radius - 0.5`, and
`rodLength = Math.hypot(outerX - innerX, outerZ - innerZ)`. -/

/-- `const gearOuterRadius = 1.6` (line 171). -/
noncomputable def gearOuterRadius : ℝ := 1.6

/-- `rodAngle = (i / cardCount) * Math.PI * 2 + rotation` (line 205). -/
noncomputable def rodAngle (i cardCount : ℕ) (rotation : ℝ) : ℝ :=
  (i : ℝ) / cardCount * (Real.pi * 2) + rotation

/-- `innerX = Math.sin(rodAngle) * gearOuterRadius` (line 206). -/
noncomputable def innerX (a : ℝ) : ℝ := Real.sin a * gearOuterRadius

/-- `innerZ = Math.cos(rodAngle) * gearOuterRadius` (line 207). -/
noncomputable def innerZ (a : ℝ) : ℝ := Real.cos a * gearOuterRadius

/-- `outerX = Math.sin(rodAngle) * (radius - 0.5)` with `radius = 6` (line 208). -/
noncomputable def outerX (a : ℝ) : ℝ := Real.sin a * (6 - 0.5)

/-- `outerZ = Math.cos(rodAngle) * (radius - 0.5)` (line 209). -/
noncomputable def outerZ (a : ℝ) : ℝ := Real.cos a * (6 - 0.5)

/-- `midX = (innerX + outerX) / 2` (line 210). -/
noncomputable def rodMidX (a : ℝ) : ℝ := (innerX a + outerX a) / 2

/-- `midZ = (innerZ + outerZ) / 2` (line 211). -/
noncomputable def rodMidZ (a : ℝ) : ℝ := (innerZ a + outerZ a) / 2

/-- `rodLength = Math.hypot(outerX - innerX, outerZ - innerZ)` (line 212). -/
noncomputable def rodLength (a : ℝ) : ℝ :=
  Real.sqrt ((outerX a - innerX a) ^ 2 + (outerZ a - innerZ a) ^ 2)

end GrcWheel.Geometry

namespace GrcWheel.Part002

/-! ### Helper lemmas about the part_002 frame dynamics -/

theorem friction_pos (d : ℚ) : 0 < friction d :=
  lt_of_lt_of_le (by norm_num) (le_max_left _ _)

theorem friction_le_one {d : ℚ} (hd : 0 ≤ d) : friction d ≤ 1 :=
  max_le (by norm_num) (by linarith)

theorem friction_lt_one {d : ℚ} (hd : 0 < d) : friction d < 1 :=
  max_lt (by norm_num) (by linarith)

theorem velStep_nonpos {d v : ℚ} (hv : v ≤ 0) : velStep d v ≤ 0 := by
  unfold velStep
  split_ifs with h1 h2
  · exact le_refl 0
  · calc v * friction d ≤ 0 * friction d :=
        mul_le_mul_of_nonneg_right hv (friction_pos d).le
      _ = 0 := zero_mul _
  · exact hv

theorem velStep_abs_le {d : ℚ} (hd : 0 ≤ d) (v : ℚ) : |velStep d v| ≤ |v| := by
  unfold velStep
  split_ifs with h1 h2
  · simp
  · rw [abs_mul, abs_of_pos (friction_pos d)]
    calc |v| * friction d ≤ |v| * 1 :=
        mul_le_mul_of_nonneg_left (friction_le_one hd) (abs_nonneg v)
      _ = |v| := mul_one _
  · exact le_refl _

theorem velStep_reach_aux (d : ℚ) :
    ∀ n : ℕ, ∀ v : ℚ, 1 / 1000000 < |v| →
      |v| * friction d ^ (n + 1) < 2 / 100000 → ∃ m, (velStep d)^[m] v = 0 := by
  intro n
  induction n with
  | zero =>
      intro v hv hb
      refine ⟨1, ?_⟩
      have hsnap : |v * friction d| < 2 / 100000 := by
        rw [abs_mul, abs_of_pos (friction_pos d)]
        rw [pow_one] at hb
        exact hb
      rw [Function.iterate_one]
      unfold velStep
      rw [if_pos hv, if_pos hsnap]
  | succ n ih =>
      intro v hv hb
      by_cases hsnap : |v * friction d| < 2 / 100000
      · refine ⟨1, ?_⟩
        rw [Function.iterate_one]
        unfold velStep
        rw [if_pos hv, if_pos hsnap]
      · have hstep : velStep d v = v * friction d := by
          unfold velStep
          rw [if_pos hv, if_neg hsnap]
        have habs : |v * friction d| = |v| * friction d := by
          rw [abs_mul, abs_of_pos (friction_pos d)]
        have hv2 : 1 / 1000000 < |v * friction d| := by
          have h1 : (2 : ℚ) / 100000 ≤ |v * friction d| := not_lt.1 hsnap
          linarith
        have hb2 : |v * friction d| * friction d ^ (n + 1) < 2 / 100000 := by
          rw [habs]
          calc |v| * friction d * friction d ^ (n + 1)
              = |v| * friction d ^ (n + 1 + 1) := by ring
            _ < 2 / 100000 := hb
        obtain ⟨m, hm⟩ := ih (v * friction d) hv2 hb2
        exact ⟨m + 1, by rw [Function.iterate_succ_apply, hstep, hm]⟩

theorem velStep_eventually_zero {d v : ℚ} (hd : 0 < d) (hv : 1 / 1000000 < |v|) :
    ∃ m, (velStep d)^[m] v = 0 := by
  have hvpos : 0 < |v| := lt_trans (by norm_num) hv
  obtain ⟨n, hn⟩ :=
    exists_pow_lt_of_lt_one
      (show (0 : ℚ) < 2 / 100000 / |v| by positivity) (friction_lt_one hd)
  have hxn : |v| * friction d ^ n < 2 / 100000 := by
    have h2 := (lt_div_iff₀ hvpos).1 hn
    rw [mul_comm]
    exact h2
  refine velStep_reach_aux d n v hv ?_
  have hle : friction d ^ (n + 1) ≤ friction d ^ n :=
    pow_le_pow_of_le_one (friction_pos d).le (friction_le_one hd.le) (Nat.le_succ n)
  calc |v| * friction d ^ (n + 1) ≤ |v| * friction d ^ n :=
      mul_le_mul_of_nonneg_left hle (abs_nonneg v)
    _ < 2 / 100000 := hxn

theorem frameAuto_velocity (d : ℚ) (s : DragState) :
    (frameAuto d s).velocity = s.velocity := by
  unfold frameAuto; split_ifs <;> rfl

theorem frameAuto_isDragging (d : ℚ) (s : DragState) :
    (frameAuto d s).isDragging = s.isDragging := by
  unfold frameAuto; split_ifs <;> rfl

theorem frameAuto_pivotReady (d : ℚ) (s : DragState) :
    (frameAuto d s).pivotReady = s.pivotReady := by
  unfold frameAuto; split_ifs <;> rfl

theorem frameInertia_velocity {d : ℚ} {s : DragState} (hdrag : s.isDragging = false)
    (hpiv : s.pivotReady = true) :
    (frameInertia d s).velocity = velStep d s.velocity := by
  unfold frameInertia velStep
  by_cases h : 1 / 1000000 < |s.velocity|
  · rw [if_pos ⟨hdrag, h, hpiv⟩, if_pos h]
  · rw [if_neg (fun hc => h hc.2.1), if_neg h]

theorem frame_velocity {d : ℚ} {s : DragState} (hdrag : s.isDragging = false)
    (hpiv : s.pivotReady = true) :
    (frame d s).velocity = velStep d s.velocity := by
  unfold frame
  have hd2 : (frameAuto d s).isDragging = false := by
    rw [frameAuto_isDragging]; exact hdrag
  have hp2 : (frameAuto d s).pivotReady = true := by
    rw [frameAuto_pivotReady]; exact hpiv
  rw [frameInertia_velocity hd2 hp2, frameAuto_velocity]

theorem frame_isDragging (d : ℚ) (s : DragState) :
    (frame d s).isDragging = s.isDragging := by
  unfold frame frameInertia frameAuto; split_ifs <;> rfl

theorem frame_pivotReady (d : ℚ) (s : DragState) :
    (frame d s).pivotReady = s.pivotReady := by
  unfold frame frameInertia frameAuto; split_ifs <;> rfl

theorem frame_iterate_velocity {d : ℚ} (n : ℕ) {s : DragState}
    (hdrag : s.isDragging = false) (hpiv : s.pivotReady = true) :
    ((frame d)^[n] s).velocity = (velStep d)^[n] s.velocity := by
  induction n generalizing s with
  | zero => rfl
  | succ n ih =>
      rw [Function.iterate_succ_apply, Function.iterate_succ_apply]
      have hd2 : (frame d s).isDragging = false := by
        rw [frame_isDragging]; exact hdrag
      have hp2 : (frame d s).pivotReady = true := by
        rw [frame_pivotReady]; exact hpiv
      rw [ih hd2 hp2, frame_velocity hdrag hpiv]

theorem velStep_iterate_nonpos {d : ℚ} (n : ℕ) {v : ℚ} (hv : v ≤ 0) :
    (velStep d)^[n] v ≤ 0 := by
  induction n generalizing v with
  | zero => exact hv
  | succ n ih =>
      rw [Function.iterate_succ_apply]
      exact ih (velStep_nonpos hv)

theorem afterDrag_eq :
    afterDrag =
      { angle := -(3 / 2), velocity := -(366 / 25), prevX := 150,
        isDragging := true, isAutoPlaying := false, pivotReady := true } := by
  have h1 : onMove 50 (onDown 0 initState) =
      { angle := -(1 / 2), velocity := -6, prevX := 50,
        isDragging := true, isAutoPlaying := false, pivotReady := true } := by
    norm_num [onMove, onDown, initState, lerp]
  have h2 : onMove 100
      { angle := -(1 / 2), velocity := -6, prevX := 50,
        isDragging := true, isAutoPlaying := false, pivotReady := true } =
      { angle := -1, velocity := -(54 / 5), prevX := 100,
        isDragging := true, isAutoPlaying := false, pivotReady := true } := by
    norm_num [onMove, lerp]
  have h3 : onMove 150
      { angle := -1, velocity := -(54 / 5), prevX := 100,
        isDragging := true, isAutoPlaying := false, pivotReady := true } =
      { angle := -(3 / 2), velocity := -(366 / 25), prevX := 150,
        isDragging := true, isAutoPlaying := false, pivotReady := true } := by
    norm_num [onMove, lerp]
  unfold afterDrag
  rw [h1, h2, h3]

theorem released_eq :
    released =
      { angle := -(3 / 2), velocity := -(366 / 25), prevX := 150,
        isDragging := false, isAutoPlaying := false, pivotReady := true } := by
  unfold released
  rw [afterDrag_eq]
  norm_num [onUp, abs_of_neg]

end GrcWheel.Part002

namespace GrcWheel.MainWheel

/-! ### Helper lemmas about the clamp and the PivotController damping -/

theorem clamp_abs_le (x : ℚ) : |clamp x (-2) 2| ≤ 2 := by
  unfold clamp
  rw [abs_le]
  exact ⟨le_max_left _ _, max_le (by norm_num) (min_le_left _ _)⟩

theorem pivotFrame_velocity_pos {d : ℚ} {s : PivotFrameState}
    (hv : 0 < s.wheelVelocity) : 0 < (pivotFrame d s).wheelVelocity := by
  show 0 < clamp (s.wheelVelocity * (92 / 100)) (-2) 2
  unfold clamp
  have h1 : 0 < s.wheelVelocity * (92 / 100) := mul_pos hv (by norm_num)
  exact lt_of_lt_of_le (lt_min (by norm_num) h1) (le_max_right _ _)

theorem pivotFrame_iterate_velocity_pos {d : ℚ} (n : ℕ) {s : PivotFrameState}
    (hv : 0 < s.wheelVelocity) : 0 < ((pivotFrame d)^[n] s).wheelVelocity := by
  induction n generalizing s with
  | zero => exact hv
  | succ n ih =>
      rw [Function.iterate_succ_apply]
      exact ih (pivotFrame_velocity_pos hv)

end GrcWheel.MainWheel

namespace GrcWheel.Geometry

/-! ### Helper lemma: the rod hypotenuse collapses to the radius difference -/

theorem rodLength_eq (a : ℝ) : rodLength a = 6 - 0.5 - gearOuterRadius := by
  unfold rodLength outerX innerX outerZ innerZ gearOuterRadius
  have hs := Real.sin_sq_add_cos_sq a
  have h : (Real.sin a * (6 - 0.5) - Real.sin a * 1.6) ^ 2 +
      (Real.cos a * (6 - 0.5) - Real.cos a * 1.6) ^ 2 = (3.9 : ℝ) ^ 2 := by
    nlinarith [hs]
  rw [h, Real.sqrt_sq (by norm_num)]
  norm_num

end GrcWheel.Geometry

namespace GrcWheel

open GrcWheel

/-! ## The claims -/

/-- C1 counterexample: in the end-to-end drag scenario of part_002 (deltas
+50 px, +50 px, +50 px at sensitivity 0.01), the angle immediately after the
drag is exactly −1.5 rad, not approximately +1.5 rad: `onMove` maps a pointer
delta `dx` to `-dx * 0.01`. -/
theorem drag_scenario_sign_counterexample :
    Part002.afterDrag.angle = -(3 / 2) ∧
    ¬ |Part002.afterDrag.angle - 3 / 2| ≤ 1 := by
  rw [Part002.afterDrag_eq]
  norm_num [abs_of_neg]

/-- C1 (amended): the scenario leaves the angle at exactly −1.5 rad and, on
release, a velocity of −14.64 rad/s that decays toward 0 over subsequent
frames (at dt = 1/60) without ever reversing sign, with nonincreasing
magnitude, reaching exactly 0 after finitely many frames. -/
theorem drag_scenario_negative_angle_and_decay :
    Part002.afterDrag.angle = -(3 / 2) ∧
    Part002.released.velocity = -(366 / 25) ∧
    (∀ n : ℕ, ((Part002.frame (1 / 60))^[n] Part002.released).velocity ≤ 0) ∧
    (∀ n : ℕ, |((Part002.frame (1 / 60))^[n + 1] Part002.released).velocity| ≤
      |((Part002.frame (1 / 60))^[n] Part002.released).velocity|) ∧
    (∃ n : ℕ, ((Part002.frame (1 / 60))^[n] Part002.released).velocity = 0) := by
  have hdrag : Part002.released.isDragging = false := by rw [Part002.released_eq]
  have hpiv : Part002.released.pivotReady = true := by rw [Part002.released_eq]
  have hvel : Part002.released.velocity = -(366 / 25) := by rw [Part002.released_eq]
  refine ⟨by rw [Part002.afterDrag_eq], hvel, ?_, ?_, ?_⟩
  · intro n
    rw [Part002.frame_iterate_velocity n hdrag hpiv]
    exact Part002.velStep_iterate_nonpos n (by rw [hvel]; norm_num)
  · intro n
    rw [Part002.frame_iterate_velocity (n + 1) hdrag hpiv,
        Part002.frame_iterate_velocity n hdrag hpiv,
        Function.iterate_succ_apply']
    exact Part002.velStep_abs_le (by norm_num) _
  · obtain ⟨m, hm⟩ :=
      Part002.velStep_eventually_zero (d := 1 / 60) (v := Part002.released.velocity)
        (by norm_num) (by rw [hvel, abs_of_neg (by norm_num)]; norm_num)
    exact ⟨m, by rw [Part002.frame_iterate_velocity m hdrag hpiv]; exact hm⟩

/-- C2 counterexample: the per-frame updates do not drive every nonzero
velocity to exactly 0.  In part_002's update a velocity of exactly 1e-6 sits
below the `> 0.000001` guard and is a fixed point forever; in
FilmRollWheel.tsx's `PivotController` the damping `*= 0.92` has no snap
threshold at all, so a velocity of 1 stays nonzero after every number of
frames. -/
theorem friction_snap_counterexample :
    (∀ n : ℕ, (Part002.velStep (1 / 60))^[n] (1 / 1000000) = 1 / 1000000) ∧
    (∀ n : ℕ, ((MainWheel.pivotFrame (1 / 60))^[n]
      { rotationY := 0, wheelVelocity := 1, isAutoPlaying := false,
        userControlActive := true }).wheelVelocity ≠ 0) := by
  constructor
  · intro n
    apply Function.iterate_fixed
    unfold Part002.velStep
    rw [if_neg]
    rw [abs_of_pos (by norm_num : (0 : ℚ) < 1 / 1000000)]
    norm_num
  · intro n
    exact (MainWheel.pivotFrame_iterate_velocity_pos n (by norm_num)).ne'

/-- C2 (amended): for part_002's frame update, from any state that is not
dragging, has the pivot mounted, and whose velocity exceeds the 1e-6 dead
zone (in particular any velocity that survives the 0.0005 release threshold),
repeated frames at any fixed dt > 0 drive the velocity to exactly 0 in
finitely many steps. -/
theorem friction_convergence_above_deadzone (d : ℚ) (s : Part002.DragState)
    (hd : 0 < d) (hdrag : s.isDragging = false) (hpiv : s.pivotReady = true)
    (hv : 1 / 1000000 < |s.velocity|) :
    ∃ n : ℕ, ((Part002.frame d)^[n] s).velocity = 0 := by
  obtain ⟨m, hm⟩ := Part002.velStep_eventually_zero hd hv
  exact ⟨m, by rw [Part002.frame_iterate_velocity m hdrag hpiv]; exact hm⟩

/-- C2 witness: the amended convergence applied at dt = 1/60 from velocity 1. -/
theorem friction_convergence_above_deadzone_witness :
    (0 : ℚ) < 1 / 60 ∧
    (∃ n : ℕ, ((Part002.frame (1 / 60))^[n]
      { angle := 0, velocity := 1, prevX := 0, isDragging := false,
        isAutoPlaying := false, pivotReady := true : Part002.DragState }).velocity = 0) :=
  ⟨by norm_num,
   friction_convergence_above_deadzone (1 / 60)
     { angle := 0, velocity := 1, prevX := 0, isDragging := false,
       isAutoPlaying := false, pivotReady := true }
     (by norm_num) rfl rfl (by norm_num)⟩

/-- C3 counterexample: the clamp invariant `|angularVelocity| ≤ 2` does not
hold immediately after a pointer-move: from rest, a single move of 1000 px
(`onPointerDown` at 0, `onPointerMove` at 1000) leaves
`wheelVelocity = 1000 * 0.0028 = 2.8 > 2`; the clamp only runs inside the
next `PivotController` frame. -/
theorem velocity_clamp_pointer_move_counterexample :
    (MainWheel.onPointerMove 1000 (MainWheel.onPointerDown 0
      { isPointerDown := false, lastClientX := none, wheelVelocity := 0,
        userControlActive := false })).wheelVelocity = 14 / 5 ∧
    ¬ |(MainWheel.onPointerMove 1000 (MainWheel.onPointerDown 0
      { isPointerDown := false, lastClientX := none, wheelVelocity := 0,
        userControlActive := false })).wheelVelocity| ≤ 2 := by
  norm_num [MainWheel.onPointerMove, MainWheel.onPointerDown, MainWheel.sensitivity,
    abs_of_pos]

/-- C3 (amended): after every `PivotController` frame update the stored
angular velocity satisfies `|wheelVelocity| ≤ 2` (the clamp runs at the end
of each frame), for every frame delta and every incoming state — but the
bound is only restored at frame boundaries, not at pointer-move events. -/
theorem velocity_clamped_after_frame (d : ℚ) (s : MainWheel.PivotFrameState) :
    |(MainWheel.pivotFrame d s).wheelVelocity| ≤ 2 :=
  MainWheel.clamp_abs_le _

/-- C4 counterexample: the part_003 `Card` does not follow the claimed
layout: at `radius = 7`, `total = 0` it sits at `(7, 0, 0)` — the
`(cos, sin)` convention — while the claimed formula gives `(0, 0, 7)`, and
its yaw is `total + π/2`, which at `total = 0` is neither `total` nor
`total + π`. -/
theorem card_layout_part003_counterexample :
    Geometry.card3Position 7 0 ≠ Geometry.specCardPosition 7 0 ∧
    Geometry.card3RotationY 0 ≠ 0 + Real.pi ∧
    Geometry.card3RotationY 0 ≠ 0 := by
  refine ⟨?_, ?_, ?_⟩
  · intro h
    have h1 := congrArg Prod.fst h
    simp [Geometry.card3Position, Geometry.specCardPosition] at h1
  · intro h
    unfold Geometry.card3RotationY at h
    have := Real.pi_pos
    linarith
  · intro h
    unfold Geometry.card3RotationY at h
    have := Real.pi_pos
    linarith

/-- C4 (amended): the vertical-axis variants follow the claimed layout.  In
FilmRollWheel.tsx and part_002 the card sits at
`(sin(total)·radius, 0, cos(total)·radius)` with `total = index·(2π/count) +
wheelRotation` and yaw `total + π`; part_001 uses the same position with yaw
`total`.  A yaw of `total` points the card's local front along the radial
direction, and the extra `π` flips it (the front faces inward, so the
outward-facing side is radial).  The part_003 variant deviates (see the
counterexample). -/
theorem card_layout_vertical_variants (radius total wheelRotation : ℝ)
    (index cardCount : ℕ) :
    Geometry.cardPosition radius total = Geometry.specCardPosition radius total ∧
    Geometry.cardRotationY total = total + Real.pi ∧
    Geometry.totalAngle index cardCount wheelRotation =
      index * (Real.pi * 2 / cardCount) + wheelRotation ∧
    Geometry.rotY (Geometry.cardRotationY1 total) (0, 0, 1) =
      (Real.sin total, 0, Real.cos total) ∧
    Geometry.rotY (Geometry.cardRotationY total) (0, 0, 1) =
      (-Real.sin total, 0, -Real.cos total) := by
  refine ⟨rfl, rfl, rfl, ?_, ?_⟩
  · unfold Geometry.rotY Geometry.cardRotationY1
    norm_num
  · unfold Geometry.rotY Geometry.cardRotationY
    rw [Real.sin_add_pi, Real.cos_add_pi]
    norm_num

/-- C5: while a drag is in progress the frame update never applies the
auto-rotate term, whatever `isAutoPlaying` is.  In part_002, a frame with
`isDragging = true` leaves the whole rotation state unchanged (both the
auto-rotate and the inertia branch are guarded by `!isDragging`), so the
angle moves only through the direct drag mapping in `onMove`.  In
FilmRollWheel.tsx's `PivotController`, once `userControlActive` is set (it is
set on pointer-down, before any drag), the frame advances the angle by
exactly the drag-accumulated velocity with no auto term. -/
theorem drag_suppresses_auto_rotate (d1 d2 : ℚ) (s : Part002.DragState)
    (ps : MainWheel.PivotFrameState) (hdrag : s.isDragging = true)
    (huser : ps.userControlActive = true) :
    Part002.frame d1 s = s ∧
    (MainWheel.pivotFrame d2 ps).rotationY = ps.rotationY - ps.wheelVelocity := by
  constructor
  · have h1 : Part002.frameAuto d1 s = s := by
      have hc : ¬(s.isAutoPlaying = true ∧ s.isDragging = false ∧
          |s.velocity| < 1 / 10000 ∧ s.pivotReady = true) := by
        rintro ⟨-, h, -⟩
        rw [hdrag] at h
        simp at h
      unfold Part002.frameAuto
      rw [if_neg hc]
    have h2 : Part002.frameInertia d1 s = s := by
      have hc : ¬(s.isDragging = false ∧ 1 / 1000000 < |s.velocity| ∧
          s.pivotReady = true) := by
        rintro ⟨h, -⟩
        rw [hdrag] at h
        simp at h
      unfold Part002.frameInertia
      rw [if_neg hc]
    unfold Part002.frame
    rw [h1, h2]
  · have hc : ¬(ps.isAutoPlaying = true ∧ ps.userControlActive = false) := by
      rintro ⟨-, h⟩
      rw [huser] at h
      simp at h
    show ps.rotationY -
        (ps.wheelVelocity +
          (if ps.isAutoPlaying = true ∧ ps.userControlActive = false
           then 2 / 100 * d2 else 0)) =
      ps.rotationY - ps.wheelVelocity
    rw [if_neg hc, add_zero]

/-- C5 witness: the theorem applied to a concrete dragging state. -/
theorem drag_suppresses_auto_rotate_witness :
    ({ angle := 0, velocity := 1, prevX := 0, isDragging := true,
       isAutoPlaying := true, pivotReady := true } : Part002.DragState).isDragging = true ∧
    ({ rotationY := 0, wheelVelocity := 1, isAutoPlaying := true,
       userControlActive := true } : MainWheel.PivotFrameState).userControlActive = true ∧
    (Part002.frame (1 / 60)
        { angle := 0, velocity := 1, prevX := 0, isDragging := true,
          isAutoPlaying := true, pivotReady := true } =
      { angle := 0, velocity := 1, prevX := 0, isDragging := true,
        isAutoPlaying := true, pivotReady := true } ∧
     (MainWheel.pivotFrame (1 / 60)
        { rotationY := 0, wheelVelocity := 1, isAutoPlaying := true,
          userControlActive := true }).rotationY =
      ({ rotationY := 0, wheelVelocity := 1, isAutoPlaying := true,
         userControlActive := true } : MainWheel.PivotFrameState).rotationY -
      ({ rotationY := 0, wheelVelocity := 1, isAutoPlaying := true,
         userControlActive := true } : MainWheel.PivotFrameState).wheelVelocity) :=
  ⟨rfl, rfl,
   drag_suppresses_auto_rotate (1 / 60) (1 / 60)
     { angle := 0, velocity := 1, prevX := 0, isDragging := true,
       isAutoPlaying := true, pivotReady := true }
     { rotationY := 0, wheelVelocity := 1, isAutoPlaying := true,
       userControlActive := true }
     rfl rfl⟩

/-- C6: clicking card `k` with no selection selects `k` and switches
auto-play off; clicking `k` again clears the selection and leaves the
auto-play flag untouched (in particular it stays `false`): `handleSelect`
only calls `setIsAutoPlaying(false)` when the incoming id is truthy. -/
theorem selection_toggle (k : ℤ) (a b : Bool) (hk : k ≠ 0) :
    MainWheel.clickCard k { selectedId := none, isAutoPlaying := a } =
      { selectedId := some k, isAutoPlaying := false } ∧
    MainWheel.clickCard k { selectedId := some k, isAutoPlaying := b } =
      { selectedId := none, isAutoPlaying := b } := by
  constructor
  · simp [MainWheel.clickCard, MainWheel.handleSelect, MainWheel.truthyId, hk]
  · simp [MainWheel.clickCard, MainWheel.handleSelect, MainWheel.truthyId]

/-- C6 witness: the toggle applied to card 3. -/
theorem selection_toggle_witness :
    (3 : ℤ) ≠ 0 ∧
    (MainWheel.clickCard 3 { selectedId := none, isAutoPlaying := true } =
      { selectedId := some 3, isAutoPlaying := false } ∧
     MainWheel.clickCard 3 { selectedId := some 3, isAutoPlaying := false } =
      { selectedId := none, isAutoPlaying := false }) :=
  ⟨by decide, selection_toggle 3 true false (by decide)⟩

/-- C7 (amended): when the controls reference is nil, both cited
configuration steps are no-ops that change nothing and raise nothing; the
part_002 retargeting runs inside `useFrame`, so once the reference exists
any frame applies the pivot target.  (The part_001 mount-once effect,
however, is not retried — see the counterexample.) -/
theorem controls_nil_guard_noop :
    Part002.retargetFrame none = none ∧
    (∀ t : ℚ × ℚ × ℚ, Part002.retargetFrame (some t) = some (6, 0, 0)) ∧
    Part001.mountEffectTarget none = none :=
  ⟨rfl, fun _ => rfl, rfl⟩

/-- C7 counterexample: in part_001, the only code that configures the
controls target is the mount-once `useEffect`.  If the reference is nil when
it runs, the effect is a no-op, and no frame update ever touches the target
afterwards: after any number of frames (here 120) the target is still its
initial value, not the pivot — the missed configuration is lost permanently,
not retried. -/
theorem controls_retry_part001_counterexample :
    Part001.mountEffectTarget none = none ∧
    (∀ (d : ℚ) (n : ℕ) (s : Part001.SceneState),
      ((Part001.sceneFrame d)^[n] s).controlsTarget = s.controlsTarget) ∧
    ((Part001.sceneFrame (1 / 60))^[120]
      { rotation := 0, isAutoPlaying := true,
        controlsTarget := some (0, 0, 0) }).controlsTarget ≠
      some (Part001.PIVOT_WORLD_X, 0, 0) := by
  have hstep : ∀ (d : ℚ) (s : Part001.SceneState),
      (Part001.sceneFrame d s).controlsTarget = s.controlsTarget := by
    intro d s
    unfold Part001.sceneFrame
    split_ifs <;> rfl
  have hiter : ∀ (d : ℚ) (n : ℕ) (s : Part001.SceneState),
      ((Part001.sceneFrame d)^[n] s).controlsTarget = s.controlsTarget := by
    intro d n
    induction n with
    | zero => intro s; rfl
    | succ n ih =>
        intro s
        rw [Function.iterate_succ_apply, ih, hstep]
  refine ⟨rfl, hiter, ?_⟩
  rw [hiter]
  norm_num [Part001.PIVOT_WORLD_X, Prod.ext_iff]

/-- C8: both spec-label mappings agree with the fixed table on their closed
key sets — part_003's six-key panel maps material → Material,
dimensions → Dimensi, weight → Berat, finish → Finishing,
category → Kategori, warranty → Garansi, and FilmRollWheel.tsx's four-key
panel agrees on its four keys — and every part_003 record renders its spec
rows in the record's insertion order. -/
theorem spec_label_mapping_and_order :
    (Part003.specLabel6 SpecKey.material = "Material" ∧
     Part003.specLabel6 SpecKey.dimensions = "Dimensi" ∧
     Part003.specLabel6 SpecKey.weight = "Berat" ∧
     Part003.specLabel6 SpecKey.finish = "Finishing" ∧
     Part003.specLabel6 SpecKey.category = "Kategori" ∧
     Part003.specLabel6 SpecKey.warranty = "Garansi") ∧
    (MainWheel.specLabel4 SpecKey.material = "Material" ∧
     MainWheel.specLabel4 SpecKey.dimensions = "Dimensi" ∧
     MainWheel.specLabel4 SpecKey.weight = "Berat" ∧
     MainWheel.specLabel4 SpecKey.finish = "Finishing") ∧
    Part003.ornamentData3.map (fun r => (Part003.renderSpecs6 r.specs).map Prod.fst) =
      List.replicate 12
        ["Material", "Dimensi", "Berat", "Finishing", "Kategori", "Garansi"] := by
  refine ⟨⟨rfl, rfl, rfl, rfl, rfl, rfl⟩, ⟨rfl, rfl, rfl, rfl⟩, ?_⟩
  rfl

/-- C9: the connector rod's `Math.hypot` collapses, in exact real
arithmetic, to the difference of the two radii — its length is exactly
`(wheelRadius − 0.5) − gearOuterRadius` for every item index and wheel
rotation (indeed for every rod angle), and the rod midpoint is the
arithmetic mean of the inner and outer endpoints. -/
theorem rod_length_and_midpoint (i cardCount : ℕ) (rotation : ℝ) :
    Geometry.rodLength (Geometry.rodAngle i cardCount rotation) =
      6 - 0.5 - Geometry.gearOuterRadius ∧
    (∀ a : ℝ, Geometry.rodLength a = 6 - 0.5 - Geometry.gearOuterRadius) ∧
    Geometry.rodMidX (Geometry.rodAngle i cardCount rotation) =
      (Geometry.innerX (Geometry.rodAngle i cardCount rotation) +
       Geometry.outerX (Geometry.rodAngle i cardCount rotation)) / 2 ∧
    Geometry.rodMidZ (Geometry.rodAngle i cardCount rotation) =
      (Geometry.innerZ (Geometry.rodAngle i cardCount rotation) +
       Geometry.outerZ (Geometry.rodAngle i cardCount rotation)) / 2 :=
  ⟨Geometry.rodLength_eq _, fun a => Geometry.rodLength_eq a, rfl, rfl⟩

/-- C10: any `selectedId` that matches no ornament record (including ids
outside 1..12, zero and negatives) makes the lookup yield `none` and the
detail panel render nothing; both are total functions, so nothing throws. -/
theorem unknown_selected_id_lookup (sid : Option ℤ)
    (h : ∀ o ∈ MainWheel.ornamentData, sid ≠ some o.id) :
    MainWheel.selectedData sid = none ∧
    MainWheel.renderDetailPanel (MainWheel.selectedData sid) = none := by
  have hnone : MainWheel.selectedData sid = none := by
    cases sid with
    | none => rfl
    | some n =>
        show (if n = 0 then none
              else MainWheel.ornamentData.find? (fun o => o.id == n)) = none
        by_cases hn : n = 0
        · rw [if_pos hn]
        · rw [if_neg hn, List.find?_eq_none]
          intro o ho hb
          rw [beq_iff_eq] at hb
          exact h o ho (by rw [hb])
  exact ⟨hnone, by rw [hnone]; rfl⟩

/-- C10 witness: the lookup at `selectedId = 99`. -/
theorem unknown_selected_id_lookup_witness :
    (∀ o ∈ MainWheel.ornamentData, (some 99 : Option ℤ) ≠ some o.id) ∧
    (MainWheel.selectedData (some 99) = none ∧
     MainWheel.renderDetailPanel (MainWheel.selectedData (some 99)) = none) :=
  ⟨by decide, unknown_selected_id_lookup (some 99) (by decide)⟩

end GrcWheel
